import Mathlib

/-!
Shallow embedding of the traffic-intersection signal controller
(source file `PROJECT FEE325262024 2.cpp`).

Modelling conventions: C++ `int` is `Int`; C++ `double` is `ℚ` (the
score and average-wait arithmetic is modelled exactly); `std::queue`
is a `List` whose head is the queue front; `throw std::runtime_error`
is `Except.error`; the wall clock is abstracted, so a `Vehicle` carries
the non-negative number of seconds `getWaitingTime` would report at
the instant of observation.  The controller's `std::vector` of four
lanes (indices 0..3 = North, East, South, West) is a total function
from `Direction`, iterated in enumeration order where the source
iterates the vector.
-/

namespace TrafficSim

/-- The `Direction` enumeration: NORTH = 0, EAST, SOUTH, WEST. -/
inductive Direction where
  | north
  | east
  | south
  | west
deriving DecidableEq, Fintype

/-- The `LightState` enumeration: RED, YELLOW, GREEN. -/
inductive LightState where
  | red
  | yellow
  | green
deriving DecidableEq, Fintype

/-- The `PedestrianState` enumeration: DONT_WALK, WALK. -/
inductive PedestrianState where
  | dontWalk
  | walk
deriving DecidableEq, Fintype

/-- Numeric value of a `Direction`, as used to index the 4-element vectors. -/
def Direction.idx : Direction → Fin 4
  | .north => 0
  | .east => 1
  | .south => 2
  | .west => 3

/-- `std::clamp(v, lo, hi)`: `v < lo ? lo : (hi < v ? hi : v)`. -/
def clampInt (v lo hi : Int) : Int :=
  if v < lo then lo else if hi < v then hi else v

/-- The `Vehicle` class.  `arrivalTime` and the clock are abstracted:
`waitingTime` is the value `getWaitingTime()` reports (seconds since
arrival, never negative). -/
structure Vehicle where
  id : Int
  emergency : Bool
  waitingTime : Nat
deriving DecidableEq

/-- `Vehicle::isEmergencyVehicle`. -/
def Vehicle.isEmergencyVehicle (v : Vehicle) : Bool := v.emergency

/-- The `PedestrianSignal` class. -/
structure PedestrianSignal where
  state : PedestrianState
  request : Bool
deriving DecidableEq

/-- `PedestrianSignal::PedestrianSignal()`. -/
def defaultPedestrianSignal : PedestrianSignal :=
  { state := .dontWalk, request := false }

/-- `PedestrianSignal::requestCrossing`. -/
def PedestrianSignal.requestCrossing (p : PedestrianSignal) : PedestrianSignal :=
  { p with request := true }

/-- `PedestrianSignal::grantCrossing`. -/
def PedestrianSignal.grantCrossing (_p : PedestrianSignal) : PedestrianSignal :=
  { state := .walk, request := false }

/-- `PedestrianSignal::endCrossing`. -/
def PedestrianSignal.endCrossing (p : PedestrianSignal) : PedestrianSignal :=
  { p with state := .dontWalk }

/-- `PedestrianSignal::isRequested`. -/
def PedestrianSignal.isRequested (p : PedestrianSignal) : Bool := p.request

/-- The `TrafficLane` class: direction, FIFO vehicle queue (list head =
queue front), and traffic density. -/
structure TrafficLane where
  direction : Direction
  vehicles : List Vehicle
  trafficDensity : Int
deriving DecidableEq

/-- `TrafficLane::TrafficLane(Direction)`: empty queue, density 5. -/
def defaultLane (dir : Direction) : TrafficLane :=
  { direction := dir, vehicles := [], trafficDensity := 5 }

/-- `TrafficLane::addVehicle`: `vehicles.push(vehicle)` appends at the tail. -/
def TrafficLane.addVehicle (l : TrafficLane) (v : Vehicle) : TrafficLane :=
  { l with vehicles := l.vehicles ++ [v] }

/-- `TrafficLane::hasVehicles`. -/
def TrafficLane.hasVehicles (l : TrafficLane) : Bool := !l.vehicles.isEmpty

/-- `TrafficLane::getQueueLength`. -/
def TrafficLane.getQueueLength (l : TrafficLane) : Nat := l.vehicles.length

/-- `TrafficLane::processVehicle`: throws ("No vehicles to process") on an
empty queue, otherwise removes and returns the front vehicle. -/
def TrafficLane.processVehicle (l : TrafficLane) : Except String (Vehicle × TrafficLane) :=
  match l.vehicles with
  | [] => .error "No vehicles to process"
  | v :: rest => .ok (v, { l with vehicles := rest })

/-- The accumulation loop of `TrafficLane::getTotalWaitTime`: walks a copy
of the queue adding each front vehicle's waiting time. -/
def totalWaitLoop (total : Nat) : List Vehicle → Nat
  | [] => total
  | v :: rest => totalWaitLoop (total + v.waitingTime) rest

/-- `TrafficLane::getTotalWaitTime`. -/
def TrafficLane.getTotalWaitTime (l : TrafficLane) : Nat :=
  totalWaitLoop 0 l.vehicles

/-- `TrafficLane::getAverageWaitTime`: 0 when empty, otherwise the total
wait divided by the queue size (C++ `double` division, modelled in ℚ). -/
def TrafficLane.getAverageWaitTime (l : TrafficLane) : ℚ :=
  if l.vehicles.isEmpty then 0
  else (l.getTotalWaitTime : ℚ) / (l.vehicles.length : ℚ)

/-- Invoking the `const` method `getAverageWaitTime` on a lane: its return
value paired with the lane afterwards (the traversal runs on the copy
`temp`, so the lane itself is untouched). -/
def TrafficLane.averageWaitTimeCall (l : TrafficLane) : ℚ × TrafficLane :=
  (l.getAverageWaitTime, l)

/-- `TrafficLane::getDirection`. -/
def TrafficLane.getDirection (l : TrafficLane) : Direction := l.direction

/-- `TrafficLane::setTrafficDensity`: stores `std::clamp(d, 0, 10)`. -/
def TrafficLane.setTrafficDensity (l : TrafficLane) (d : Int) : TrafficLane :=
  { l with trafficDensity := clampInt d 0 10 }

/-- `TrafficLane::getTrafficDensity`. -/
def TrafficLane.getTrafficDensity (l : TrafficLane) : Int := l.trafficDensity

/-- The scan loop of `TrafficLane::hasEmergencyVehicle`: walks a copy of
the queue looking for an emergency flag. -/
def emergencyScan : List Vehicle → Bool
  | [] => false
  | v :: rest => if v.isEmergencyVehicle then true else emergencyScan rest

/-- `TrafficLane::hasEmergencyVehicle`. -/
def TrafficLane.hasEmergencyVehicle (l : TrafficLane) : Bool :=
  emergencyScan l.vehicles

/-- The `TrafficSignal` class: four light states indexed 0..3, the index
of the current green direction (−1 when none), and the timing constants. -/
structure TrafficSignal where
  lightStates : Fin 4 → LightState
  currentGreenDirection : Int
  baseGreenTime : Int
  yellowTime : Int
  minGreenTime : Int
  maxGreenTime : Int

/-- Write of `lightStates[i] = s` for an `int` index `i` (in the program
`i` is always a valid index when the write executes). -/
def writeLight (f : Fin 4 → LightState) (i : Int) (s : LightState) : Fin 4 → LightState :=
  fun j => if (j.val : Int) = i then s else f j

/-- `TrafficSignal::TrafficSignal()`: all red, no current green, constants
20, 3, 10, 60. -/
def defaultSignal : TrafficSignal :=
  { lightStates := fun _ => .red
    currentGreenDirection := -1
    baseGreenTime := 20
    yellowTime := 3
    minGreenTime := 10
    maxGreenTime := 60 }

/-- `TrafficSignal::changeLight`: the current green direction (if any) goes
Red, the new direction goes Green and becomes current. -/
def TrafficSignal.changeLight (sig : TrafficSignal) (newGreenDir : Direction) : TrafficSignal :=
  let cleared :=
    if 0 ≤ sig.currentGreenDirection then
      writeLight sig.lightStates sig.currentGreenDirection .red
    else sig.lightStates
  { sig with
    lightStates := writeLight cleared (newGreenDir.idx.val : Int) .green
    currentGreenDirection := (newGreenDir.idx.val : Int) }

/-- `TrafficSignal::setYellow`: the current green direction (if any) goes
Yellow; `currentGreenDirection` is unchanged. -/
def TrafficSignal.setYellow (sig : TrafficSignal) : TrafficSignal :=
  if 0 ≤ sig.currentGreenDirection then
    { sig with lightStates := writeLight sig.lightStates sig.currentGreenDirection .yellow }
  else sig

/-- `TrafficSignal::getLightState`. -/
def TrafficSignal.getLightState (sig : TrafficSignal) (dir : Direction) : LightState :=
  sig.lightStates dir.idx

/-- `TrafficSignal::getYellowTime`. -/
def TrafficSignal.getYellowTime (sig : TrafficSignal) : Int := sig.yellowTime

/-- `TrafficSignal::calculateAdaptiveGreenTime`:
`clamp(baseGreenTime + queueLength*2 + density*2, minGreenTime, maxGreenTime)`. -/
def TrafficSignal.calculateAdaptiveGreenTime (sig : TrafficSignal) (lane : TrafficLane) : Int :=
  clampInt (sig.baseGreenTime + (lane.getQueueLength : Int) * 2 + lane.getTrafficDensity * 2)
    sig.minGreenTime sig.maxGreenTime

/-- The `IntersectionController` class.  The four-element lane vector and
the pedestrian-signal map are total functions from `Direction`; the
random generator is external stimulus and is not part of the state. -/
structure IntersectionController where
  lanes : Direction → TrafficLane
  pedestrianSignals : Direction → PedestrianSignal
  signal : TrafficSignal
  vehicleCounter : Int
  totalVehiclesProcessed : Int
  totalWaitTime : Int
  cycleCounter : Int

/-- `IntersectionController::IntersectionController()`. -/
def defaultController : IntersectionController :=
  { lanes := fun d => defaultLane d
    pedestrianSignals := fun _ => defaultPedestrianSignal
    signal := defaultSignal
    vehicleCounter := 0
    totalVehiclesProcessed := 0
    totalWaitTime := 0
    cycleCounter := 0 }

/-- The controller's lane vector in its iteration order (indices 0..3). -/
def IntersectionController.lanesList (c : IntersectionController) : List TrafficLane :=
  [c.lanes .north, c.lanes .east, c.lanes .south, c.lanes .west]

/-- First loop of `findNextGreenDirection`: return the direction of the
first lane holding an emergency vehicle, if any. -/
def emergencyLaneScan : List TrafficLane → Option Direction
  | [] => none
  | lane :: rest =>
    if lane.hasEmergencyVehicle then some lane.getDirection
    else emergencyLaneScan rest

/-- The priority score of a lane:
`queueLength * averageWaitTime * (1 + density / 10.0)`. -/
def laneScore (lane : TrafficLane) : ℚ :=
  (lane.getQueueLength : ℚ) * lane.getAverageWaitTime * (1 + (lane.getTrafficDensity : ℚ) / 10)

/-- Second loop of `findNextGreenDirection`: running maximum score and best
direction, updated on a strict `>` comparison for lanes with vehicles. -/
def bestLaneLoop (maxScore : ℚ) (best : Direction) : List TrafficLane → Direction
  | [] => best
  | lane :: rest =>
    if lane.hasVehicles then
      if laneScore lane > maxScore then bestLaneLoop (laneScore lane) lane.getDirection rest
      else bestLaneLoop maxScore best rest
    else bestLaneLoop maxScore best rest

/-- `IntersectionController::findNextGreenDirection`. -/
def IntersectionController.findNextGreenDirection (c : IntersectionController) : Direction :=
  match emergencyLaneScan c.lanesList with
  | some d => d
  | none => bestLaneLoop (-1) .north c.lanesList

/-- Invoking the method `findNextGreenDirection` on a controller: its
return value paired with the controller afterwards (the body performs no
member writes). -/
def IntersectionController.findNextGreenDirectionCall (c : IntersectionController) :
    Direction × IntersectionController :=
  (c.findNextGreenDirection, c)

/-- The `while (passed < canPass && lanes[dir].hasVehicles())` loop of
`processVehicles`, with `fuel = canPass − passed` remaining iterations
allowed; carries the lane and the two statistics counters. -/
def drainLoop : Nat → TrafficLane → Int → Int → Except String (TrafficLane × Int × Int)
  | 0, lane, tvp, twt => .ok (lane, tvp, twt)
  | fuel + 1, lane, tvp, twt =>
    if lane.hasVehicles then
      match lane.processVehicle with
      | .error e => .error e
      | .ok (v, lane2) => drainLoop fuel lane2 (tvp + 1) (twt + (v.waitingTime : Int))
    else .ok (lane, tvp, twt)

/-- `IntersectionController::processVehicles(dir, greenTime)`:
`canPass = greenTime / 2` (C++ `int` division truncates toward zero);
drains up to `canPass` vehicles from the head of `lanes[dir]`, adding each
waiting time to `totalWaitTime` and counting each into
`totalVehiclesProcessed`.  An uncaught `processVehicle` throw propagates. -/
def IntersectionController.processVehicles (c : IntersectionController) (dir : Direction)
    (greenTime : Int) : Except String IntersectionController :=
  let canPass := Int.tdiv greenTime 2
  match drainLoop canPass.toNat (c.lanes dir) c.totalVehiclesProcessed c.totalWaitTime with
  | .error e => .error e
  | .ok (lane2, tvp, twt) =>
    .ok { c with
          lanes := fun d => if d = dir then lane2 else c.lanes d
          totalVehiclesProcessed := tvp
          totalWaitTime := twt }

/-- The signal-transition segment of `IntersectionController::processCycle`
(lines 179–186): when a direction is currently green, `setYellow()` runs
and the loop sleeps for `getYellowTime()` seconds before `changeLight`.
Returns the state held during the pause, the state after `changeLight`,
and the length of the yellow hold. -/
def cycleTransition (sig : TrafficSignal) (nextDir : Direction) :
    TrafficSignal × TrafficSignal × Int :=
  if 0 ≤ sig.currentGreenDirection then
    let held := sig.setYellow
    (held, held.changeLight nextDir, sig.getYellowTime)
  else
    (sig, sig.changeLight nextDir, 0)

/-- Signal states reachable from the constructor state by the two mutators
the program uses, `changeLight` and `setYellow`. -/
inductive SignalReachable : TrafficSignal → Prop where
  | base : SignalReachable defaultSignal
  | change {s : TrafficSignal} (d : Direction) :
      SignalReachable s → SignalReachable (s.changeLight d)
  | yellow {s : TrafficSignal} :
      SignalReachable s → SignalReachable s.setYellow

/-- Lane states reachable from the constructor state by the mutators the
program uses: `addVehicle`, `setTrafficDensity`, and a successful
`processVehicle`. -/
inductive LaneReachable : TrafficLane → Prop where
  | base (dir : Direction) : LaneReachable (defaultLane dir)
  | add {l : TrafficLane} (v : Vehicle) :
      LaneReachable l → LaneReachable (l.addVehicle v)
  | setD {l : TrafficLane} (d : Int) :
      LaneReachable l → LaneReachable (l.setTrafficDensity d)
  | proc {l l2 : TrafficLane} {v : Vehicle} :
      LaneReachable l → l.processVehicle = .ok (v, l2) → LaneReachable l2

/-- Inverse of `Direction.idx`: the direction stored at a vector index. -/
def idxToDir : Fin 4 → Direction
  | ⟨0, _⟩ => .north
  | ⟨1, _⟩ => .east
  | ⟨2, _⟩ => .south
  | ⟨3, _⟩ => .west

/-- The lane at vector index `i` of the controller. -/
def laneAt (c : IntersectionController) (i : Fin 4) : TrafficLane :=
  c.lanes (idxToDir i)

/-- Key signal invariant: any green light sits at the index recorded in
`currentGreenDirection`. -/
def goodSignal (s : TrafficSignal) : Prop :=
  ∀ j : Fin 4, s.lightStates j = .green → (j.val : Int) = s.currentGreenDirection

/-- Repeatedly calling `processVehicle`, collecting the returned vehicles
until the lane is empty (at most `fuel` calls). -/
def drainAllLoop : Nat → TrafficLane → List Vehicle
  | 0, _ => []
  | fuel + 1, l =>
    match l.processVehicle with
    | .error _ => []
    | .ok (v, l2) => v :: drainAllLoop fuel l2

/-- The vehicles a lane releases, in release order, when dequeued to
exhaustion. -/
def TrafficLane.drainAll (l : TrafficLane) : List Vehicle :=
  drainAllLoop l.vehicles.length l

/-- The controller constructor's guarantee that `lanes[i]` was built with
direction `i` (nothing ever mutates a lane's direction). -/
abbrev lanesWellFormed (c : IntersectionController) : Prop :=
  (c.lanes .north).direction = .north ∧ (c.lanes .east).direction = .east ∧
  (c.lanes .south).direction = .south ∧ (c.lanes .west).direction = .west

/-- Every lane's density lies in `[0, 10]`. -/
abbrev densitiesInRange (c : IntersectionController) : Prop :=
  (0 ≤ (c.lanes .north).trafficDensity ∧ (c.lanes .north).trafficDensity ≤ 10) ∧
  (0 ≤ (c.lanes .east).trafficDensity ∧ (c.lanes .east).trafficDensity ≤ 10) ∧
  (0 ≤ (c.lanes .south).trafficDensity ∧ (c.lanes .south).trafficDensity ≤ 10) ∧
  (0 ≤ (c.lanes .west).trafficDensity ∧ (c.lanes .west).trafficDensity ≤ 10)

/-- No lane currently holds an emergency vehicle. -/
abbrev noEmergency (c : IntersectionController) : Prop :=
  (c.lanes .north).hasEmergencyVehicle = false ∧
  (c.lanes .east).hasEmergencyVehicle = false ∧
  (c.lanes .south).hasEmergencyVehicle = false ∧
  (c.lanes .west).hasEmergencyVehicle = false

/-- Some lane currently holds an emergency vehicle. -/
abbrev someEmergency (c : IntersectionController) : Prop :=
  (c.lanes .north).hasEmergencyVehicle = true ∨
  (c.lanes .east).hasEmergencyVehicle = true ∨
  (c.lanes .south).hasEmergencyVehicle = true ∨
  (c.lanes .west).hasEmergencyVehicle = true

/-- Concrete lane ("Scenario A"): three ordinary vehicles on North with
waits 4, 10 and 2 seconds, density 5. -/
def sampleLaneNorthA : TrafficLane :=
  { direction := .north
    vehicles := [⟨1, false, 4⟩, ⟨2, false, 10⟩, ⟨3, false, 2⟩]
    trafficDensity := 5 }

/-- Concrete lane ("Scenario B"): one emergency vehicle on East. -/
def sampleLaneEastB : TrafficLane :=
  { direction := .east
    vehicles := [⟨9, true, 0⟩]
    trafficDensity := 5 }

/-- Concrete controller state: Scenario A lanes (only North occupied). -/
def sampleControllerA : IntersectionController :=
  { defaultController with
    lanes := fun d =>
      match d with
      | .north => sampleLaneNorthA
      | .east => defaultLane .east
      | .south => defaultLane .south
      | .west => defaultLane .west }

/-- Concrete controller state: North occupied, an emergency vehicle on
East. -/
def sampleControllerB : IntersectionController :=
  { defaultController with
    lanes := fun d =>
      match d with
      | .north => sampleLaneNorthA
      | .east => sampleLaneEastB
      | .south => defaultLane .south
      | .west => defaultLane .west }

/-! ### Helper lemmas -/

theorem totalWaitLoop_eq (vs : List Vehicle) :
    ∀ t : Nat, totalWaitLoop t vs = t + (vs.map Vehicle.waitingTime).sum := by
  induction vs with
  | nil => intro t; simp [totalWaitLoop]
  | cons v rest ih =>
    intro t
    simp only [totalWaitLoop, ih, List.map_cons, List.sum_cons]
    omega

theorem getTotalWaitTime_eq (l : TrafficLane) :
    l.getTotalWaitTime = (l.vehicles.map Vehicle.waitingTime).sum := by
  simp [TrafficLane.getTotalWaitTime, totalWaitLoop_eq]

theorem getAverageWaitTime_nonneg (l : TrafficLane) : 0 ≤ l.getAverageWaitTime := by
  unfold TrafficLane.getAverageWaitTime
  split
  · exact le_refl 0
  · exact div_nonneg (by positivity) (by positivity)

theorem laneScore_nonneg (l : TrafficLane) (hd : 0 ≤ l.getTrafficDensity) :
    0 ≤ laneScore l := by
  unfold laneScore
  have h1 : (0 : ℚ) ≤ (l.getQueueLength : ℚ) := by positivity
  have h2 : (0 : ℚ) ≤ 1 + (l.getTrafficDensity : ℚ) / 10 := by
    have : (0 : ℚ) ≤ (l.getTrafficDensity : ℚ) := by exact_mod_cast hd
    linarith
  exact mul_nonneg (mul_nonneg h1 (getAverageWaitTime_nonneg l)) h2

theorem clampInt_bounds (v lo hi : Int) (h : lo ≤ hi) :
    lo ≤ clampInt v lo hi ∧ clampInt v lo hi ≤ hi := by
  unfold clampInt
  split <;> [omega; (split <;> omega)]

/-- Characterisation of the running-maximum loop: either no lane beats the
incoming maximum and the incoming best is returned, or the result is the
direction of the first lane attaining the maximum score (strict `>`
against every earlier lane with vehicles, `≥` against every lane with
vehicles). -/
theorem bestLaneLoop_spec (ls : List TrafficLane) : ∀ (m : ℚ) (b : Direction),
    ((∀ l ∈ ls, l.hasVehicles = true → laneScore l ≤ m) ∧ bestLaneLoop m b ls = b)
    ∨ ∃ j : Fin ls.length,
        (ls.get j).hasVehicles = true ∧ m < laneScore (ls.get j) ∧
        bestLaneLoop m b ls = (ls.get j).getDirection ∧
        (∀ i : Fin ls.length,
          (ls.get i).hasVehicles = true → laneScore (ls.get i) ≤ laneScore (ls.get j)) ∧
        (∀ i : Fin ls.length, i < j →
          (ls.get i).hasVehicles = true → laneScore (ls.get i) < laneScore (ls.get j)) := by
  induction ls with
  | nil =>
    intro m b
    left
    exact ⟨by simp, rfl⟩
  | cons l rest ih =>
    intro m b
    by_cases hv : l.hasVehicles = true
    · by_cases hs : laneScore l > m
      · have hloop : bestLaneLoop m b (l :: rest) =
            bestLaneLoop (laneScore l) l.getDirection rest := by
          simp [bestLaneLoop, hv, hs]
        rcases ih (laneScore l) l.getDirection with ⟨hall, heq⟩ | ⟨j, hjv, hjm, hjeq, hmax, hfirst⟩
        · right
          refine ⟨⟨0, Nat.succ_pos _⟩, hv, hs, hloop.trans heq, ?_, ?_⟩
          · rintro ⟨iv, hi⟩ hiv
            cases iv with
            | zero => exact le_refl _
            | succ n =>
              exact hall _ (List.get_mem rest n (Nat.succ_lt_succ_iff.mp hi)) hiv
          · rintro ⟨iv, hi⟩ hlt
            exact absurd hlt (by simp [Fin.lt_def])
        · right
          refine ⟨⟨j.val + 1, Nat.succ_lt_succ j.isLt⟩, hjv, lt_trans hs hjm,
            hloop.trans hjeq, ?_, ?_⟩
          · rintro ⟨iv, hi⟩ hiv
            cases iv with
            | zero => exact le_of_lt hjm
            | succ n => exact hmax ⟨n, Nat.succ_lt_succ_iff.mp hi⟩ hiv
          · rintro ⟨iv, hi⟩ hlt hiv
            cases iv with
            | zero => exact hjm
            | succ n =>
              exact hfirst ⟨n, Nat.succ_lt_succ_iff.mp hi⟩
                (by simpa [Fin.lt_def] using hlt) hiv
      · have hle : laneScore l ≤ m := not_lt.mp hs
        have hloop : bestLaneLoop m b (l :: rest) = bestLaneLoop m b rest := by
          simp [bestLaneLoop, hv, hs]
        rcases ih m b with ⟨hall, heq⟩ | ⟨j, hjv, hjm, hjeq, hmax, hfirst⟩
        · left
          refine ⟨?_, hloop.trans heq⟩
          intro l' hl' hv'
          rcases List.mem_cons.mp hl' with h | h
          · subst h; exact hle
          · exact hall l' h hv'
        · right
          refine ⟨⟨j.val + 1, Nat.succ_lt_succ j.isLt⟩, hjv, hjm, hloop.trans hjeq, ?_, ?_⟩
          · rintro ⟨iv, hi⟩ hiv
            cases iv with
            | zero => exact le_trans hle (le_of_lt hjm)
            | succ n => exact hmax ⟨n, Nat.succ_lt_succ_iff.mp hi⟩ hiv
          · rintro ⟨iv, hi⟩ hlt hiv
            cases iv with
            | zero => exact lt_of_le_of_lt hle hjm
            | succ n =>
              exact hfirst ⟨n, Nat.succ_lt_succ_iff.mp hi⟩
                (by simpa [Fin.lt_def] using hlt) hiv
    · have hloop : bestLaneLoop m b (l :: rest) = bestLaneLoop m b rest := by
        simp [bestLaneLoop, hv]
      rcases ih m b with ⟨hall, heq⟩ | ⟨j, hjv, hjm, hjeq, hmax, hfirst⟩
      · left
        refine ⟨?_, hloop.trans heq⟩
        intro l' hl' hv'
        rcases List.mem_cons.mp hl' with h | h
        · subst h; exact absurd hv' hv
        · exact hall l' h hv'
      · right
        refine ⟨⟨j.val + 1, Nat.succ_lt_succ j.isLt⟩, hjv, hjm, hloop.trans hjeq, ?_, ?_⟩
        · rintro ⟨iv, hi⟩ hiv
          cases iv with
          | zero => exact absurd hiv hv
          | succ n => exact hmax ⟨n, Nat.succ_lt_succ_iff.mp hi⟩ hiv
        · rintro ⟨iv, hi⟩ hlt hiv
          cases iv with
          | zero => exact absurd hiv hv
          | succ n =>
            exact hfirst ⟨n, Nat.succ_lt_succ_iff.mp hi⟩
              (by simpa [Fin.lt_def] using hlt) hiv

theorem Direction.idx_injective : Function.Injective Direction.idx := by
  intro a b h
  revert h
  revert a b
  decide

theorem changeLight_lightStates (s : TrafficSignal) (d : Direction) (j : Fin 4) :
    (s.changeLight d).lightStates j =
      if (j.val : Int) = (d.idx.val : Int) then .green
      else if 0 ≤ s.currentGreenDirection ∧ (j.val : Int) = s.currentGreenDirection then .red
      else s.lightStates j := by
  unfold TrafficSignal.changeLight writeLight
  by_cases h1 : (j.val : Int) = (d.idx.val : Int) <;>
    by_cases h2 : 0 ≤ s.currentGreenDirection <;>
      by_cases h3 : (j.val : Int) = s.currentGreenDirection <;>
        simp [h1, h2, h3]

theorem changeLight_currentGreen (s : TrafficSignal) (d : Direction) :
    (s.changeLight d).currentGreenDirection = (d.idx.val : Int) := rfl

theorem setYellow_lightStates (s : TrafficSignal) (j : Fin 4) :
    s.setYellow.lightStates j =
      if 0 ≤ s.currentGreenDirection ∧ (j.val : Int) = s.currentGreenDirection then .yellow
      else s.lightStates j := by
  unfold TrafficSignal.setYellow writeLight
  by_cases h2 : 0 ≤ s.currentGreenDirection <;>
    by_cases h3 : (j.val : Int) = s.currentGreenDirection <;>
      simp [h2, h3]

theorem setYellow_currentGreen (s : TrafficSignal) :
    s.setYellow.currentGreenDirection = s.currentGreenDirection := by
  unfold TrafficSignal.setYellow
  split <;> rfl

theorem goodSignal_default : goodSignal defaultSignal := by
  intro j h
  simp [defaultSignal] at h

theorem changeLight_green_iff (s : TrafficSignal) (hs : goodSignal s) (d : Direction)
    (j : Fin 4) : (s.changeLight d).lightStates j = .green ↔ j = d.idx := by
  rw [changeLight_lightStates]
  by_cases h1 : (j.val : Int) = (d.idx.val : Int)
  · rw [if_pos h1]
    exact iff_of_true rfl (Fin.ext (by exact_mod_cast h1))
  · rw [if_neg h1]
    have hj : j ≠ d.idx := fun he => h1 (by rw [he])
    split_ifs with h2
    · simp [hj]
    · constructor
      · intro hg
        have hc := hs j hg
        exact absurd ⟨by omega, hc⟩ h2
      · intro he
        exact absurd he hj

theorem goodSignal_changeLight (s : TrafficSignal) (hs : goodSignal s) (d : Direction) :
    goodSignal (s.changeLight d) := by
  intro j hg
  have hj := (changeLight_green_iff s hs d j).mp hg
  subst hj
  rfl

theorem goodSignal_setYellow (s : TrafficSignal) (hs : goodSignal s) :
    goodSignal s.setYellow := by
  intro j hg
  rw [setYellow_lightStates] at hg
  rw [setYellow_currentGreen]
  split_ifs at hg with h
  exact hs j hg

theorem signalReachable_good {s : TrafficSignal} (h : SignalReachable s) : goodSignal s := by
  induction h with
  | base => exact goodSignal_default
  | change d _ ih => exact goodSignal_changeLight _ ih d
  | yellow _ ih => exact goodSignal_setYellow _ ih

theorem changeLight_consts (s : TrafficSignal) (d : Direction) :
    (s.changeLight d).baseGreenTime = s.baseGreenTime ∧
    (s.changeLight d).yellowTime = s.yellowTime ∧
    (s.changeLight d).minGreenTime = s.minGreenTime ∧
    (s.changeLight d).maxGreenTime = s.maxGreenTime :=
  ⟨rfl, rfl, rfl, rfl⟩

theorem setYellow_consts (s : TrafficSignal) :
    s.setYellow.baseGreenTime = s.baseGreenTime ∧
    s.setYellow.yellowTime = s.yellowTime ∧
    s.setYellow.minGreenTime = s.minGreenTime ∧
    s.setYellow.maxGreenTime = s.maxGreenTime := by
  unfold TrafficSignal.setYellow
  split <;> exact ⟨rfl, rfl, rfl, rfl⟩

theorem signalReachable_consts {s : TrafficSignal} (h : SignalReachable s) :
    s.baseGreenTime = 20 ∧ s.yellowTime = 3 ∧ s.minGreenTime = 10 ∧ s.maxGreenTime = 60 := by
  induction h with
  | base => exact ⟨rfl, rfl, rfl, rfl⟩
  | change d _ ih =>
    obtain ⟨c1, c2, c3, c4⟩ := changeLight_consts _ d
    exact ⟨c1.trans ih.1, c2.trans ih.2.1, c3.trans ih.2.2.1, c4.trans ih.2.2.2⟩
  | yellow _ ih =>
    obtain ⟨c1, c2, c3, c4⟩ := setYellow_consts _
    exact ⟨c1.trans ih.1, c2.trans ih.2.1, c3.trans ih.2.2.1, c4.trans ih.2.2.2⟩

theorem laneReachable_density {l : TrafficLane} (h : LaneReachable l) :
    0 ≤ l.trafficDensity ∧ l.trafficDensity ≤ 10 := by
  induction h with
  | base dir => exact ⟨by norm_num [defaultLane], by norm_num [defaultLane]⟩
  | add v _ ih => exact ih
  | setD d _ ih => exact clampInt_bounds d 0 10 (by norm_num)
  | proc _ heq ih =>
    rename_i l l2 v _
    rcases hv : l.vehicles with _ | ⟨w, rest⟩
    · simp [TrafficLane.processVehicle, hv] at heq
    · simp only [TrafficLane.processVehicle, hv] at heq
      rw [Except.ok.injEq, Prod.mk.injEq] at heq
      obtain ⟨-, h2⟩ := heq
      rw [← h2]
      exact ih

theorem drainLoop_spec : ∀ (fuel : Nat) (l : TrafficLane) (tvp twt : Int),
    drainLoop fuel l tvp twt = .ok
      ({ l with vehicles := l.vehicles.drop (min fuel l.vehicles.length) },
       tvp + ((min fuel l.vehicles.length : Nat) : Int),
       twt + ((l.vehicles.take (min fuel l.vehicles.length)).map
         (fun v => (v.waitingTime : Int))).sum) := by
  intro fuel
  induction fuel with
  | zero =>
    intro l tvp twt
    simp [drainLoop]
  | succ n ih =>
    rintro ⟨dir, vs, dens⟩ tvp twt
    rcases vs with _ | ⟨v, rest⟩
    · simp [drainLoop, TrafficLane.hasVehicles]
    · have hstep : drainLoop (n + 1) ⟨dir, v :: rest, dens⟩ tvp twt =
          drainLoop n ⟨dir, rest, dens⟩ (tvp + 1) (twt + (v.waitingTime : Int)) := by
        simp [drainLoop, TrafficLane.hasVehicles, TrafficLane.processVehicle]
      rw [hstep, ih]
      simp only [List.length_cons, Nat.succ_min_succ, List.drop_succ_cons,
        List.take_succ_cons, List.map_cons, List.sum_cons, Nat.cast_add, Nat.cast_one,
        Except.ok.injEq, Prod.mk.injEq]
      refine ⟨trivial, ?_, ?_⟩ <;> push_cast <;> ring

theorem drainAllLoop_spec : ∀ (vs : List Vehicle) (dir : Direction) (dens : Int),
    drainAllLoop vs.length ⟨dir, vs, dens⟩ = vs := by
  intro vs
  induction vs with
  | nil => intro dir dens; simp [drainAllLoop]
  | cons v rest ih =>
    intro dir dens
    simp [drainAllLoop, TrafficLane.processVehicle, ih]

theorem drainAll_eq_vehicles (l : TrafficLane) : l.drainAll = l.vehicles := by
  obtain ⟨dir, vs, dens⟩ := l
  exact drainAllLoop_spec vs dir dens

theorem lanesList_get (c : IntersectionController) (i : Fin 4) :
    c.lanesList.get i = laneAt c i := by
  rcases i with ⟨iv, hi⟩
  have h4 : iv < 4 := hi
  interval_cases iv <;> rfl

theorem wellFormed_direction_at {c : IntersectionController} (h : lanesWellFormed c)
    (i : Fin 4) : (laneAt c i).getDirection = idxToDir i := by
  obtain ⟨hN, hE, hS, hW⟩ := h
  rcases i with ⟨iv, hi⟩
  have h4 : iv < 4 := hi
  interval_cases iv
  · exact hN
  · exact hE
  · exact hS
  · exact hW

theorem densities_nonneg_at {c : IntersectionController} (h : densitiesInRange c)
    (i : Fin 4) : 0 ≤ (laneAt c i).getTrafficDensity := by
  obtain ⟨hN, hE, hS, hW⟩ := h
  rcases i with ⟨iv, hi⟩
  have h4 : iv < 4 := hi
  interval_cases iv
  · exact hN.1
  · exact hE.1
  · exact hS.1
  · exact hW.1

theorem noEmergency_scan {c : IntersectionController} (h : noEmergency c) :
    emergencyLaneScan c.lanesList = none := by
  obtain ⟨hN, hE, hS, hW⟩ := h
  simp [emergencyLaneScan, IntersectionController.lanesList, hN, hE, hS, hW]

/-! ### Claims -/

/-- C1: whenever at least one lane holds an emergency vehicle,
`findNextGreenDirection` returns the direction of the first such lane in
the fixed order North, East, South, West, regardless of every lane's
priority score and queue contents. -/
theorem emergency_preemption (c : IntersectionController)
    (hwf : lanesWellFormed c) (hem : someEmergency c) :
    c.findNextGreenDirection =
      (if (c.lanes .north).hasEmergencyVehicle then .north
       else if (c.lanes .east).hasEmergencyVehicle then .east
       else if (c.lanes .south).hasEmergencyVehicle then .south
       else .west) := by
  obtain ⟨hN, hE, hS, hW⟩ := hwf
  unfold IntersectionController.findNextGreenDirection
  by_cases eN : (c.lanes Direction.north).hasEmergencyVehicle
  · simp [IntersectionController.lanesList, emergencyLaneScan, eN,
      TrafficLane.getDirection, hN]
  · by_cases eE : (c.lanes Direction.east).hasEmergencyVehicle
    · simp [IntersectionController.lanesList, emergencyLaneScan, eN, eE,
        TrafficLane.getDirection, hE]
    · by_cases eS : (c.lanes Direction.south).hasEmergencyVehicle
      · simp [IntersectionController.lanesList, emergencyLaneScan, eN, eE, eS,
          TrafficLane.getDirection, hS]
      · by_cases eW : (c.lanes Direction.west).hasEmergencyVehicle
        · simp [IntersectionController.lanesList, emergencyLaneScan, eN, eE, eS, eW,
            TrafficLane.getDirection, hW]
        · rcases hem with h | h | h | h <;> simp_all

/-- Witness for C1: emergency vehicle on East, a high-scoring queue on
North; East is selected. -/
theorem emergency_preemption_witness :
    lanesWellFormed sampleControllerB ∧ someEmergency sampleControllerB ∧
    sampleControllerB.findNextGreenDirection =
      (if (sampleControllerB.lanes .north).hasEmergencyVehicle then .north
       else if (sampleControllerB.lanes .east).hasEmergencyVehicle then .east
       else if (sampleControllerB.lanes .south).hasEmergencyVehicle then .south
       else .west) :=
  ⟨by decide, by decide, emergency_preemption sampleControllerB (by decide) (by decide)⟩

/-- C2: with no emergency vehicle anywhere, `findNextGreenDirection`
returns North when all lanes are empty, and otherwise the direction of the
lane with the strictly greatest score
`queueLength * averageWaitTime * (1 + density/10)` among lanes with
vehicles, ties resolving to the earlier lane in North, East, South, West
order (strict `>` comparison). -/
theorem priority_selection (c : IntersectionController)
    (hwf : lanesWellFormed c) (hdens : densitiesInRange c) (hem : noEmergency c) :
    ((∀ i : Fin 4, (laneAt c i).hasVehicles = false) →
      c.findNextGreenDirection = .north) ∧
    ((∃ i : Fin 4, (laneAt c i).hasVehicles = true) →
      ∃ j : Fin 4, (laneAt c j).hasVehicles = true ∧
        c.findNextGreenDirection = idxToDir j ∧
        (∀ i : Fin 4, (laneAt c i).hasVehicles = true →
          laneScore (laneAt c i) ≤ laneScore (laneAt c j)) ∧
        (∀ i : Fin 4, i < j → (laneAt c i).hasVehicles = true →
          laneScore (laneAt c i) < laneScore (laneAt c j))) := by
  have hfind : c.findNextGreenDirection = bestLaneLoop (-1) .north c.lanesList := by
    unfold IntersectionController.findNextGreenDirection
    rw [noEmergency_scan hem]
  rcases bestLaneLoop_spec c.lanesList (-1) Direction.north with
    ⟨hall, heq⟩ | ⟨j, hjv, hjm, hjeq, hmax, hfirst⟩
  · constructor
    · intro _
      rw [hfind, heq]
    · rintro ⟨i, hi⟩
      exfalso
      have hmem : laneAt c i ∈ c.lanesList := by
        rw [← lanesList_get c i]
        exact List.get_mem _ _ _
      have hle := hall _ hmem hi
      have h0 : 0 ≤ laneScore (laneAt c i) :=
        laneScore_nonneg _ (densities_nonneg_at hdens i)
      linarith
  · constructor
    · intro hempty
      have hv : (laneAt c j).hasVehicles = true := by
        rw [← lanesList_get c j]
        exact hjv
      simp [hempty j] at hv
    · intro _
      refine ⟨j, ?_, ?_, ?_, ?_⟩
      · rw [← lanesList_get c j]
        exact hjv
      · rw [hfind, hjeq, lanesList_get c j]
        exact wellFormed_direction_at hwf j
      · intro i hiv
        have h1 := hmax i (by rw [lanesList_get c i]; exact hiv)
        rwa [lanesList_get c i, lanesList_get c j] at h1
      · intro i hij hiv
        have h1 := hfirst i hij (by rw [lanesList_get c i]; exact hiv)
        rwa [lanesList_get c i, lanesList_get c j] at h1

/-- Witness for C2: Scenario A (only North occupied, waits 4/10/2,
density 5); North attains the maximum score. -/
theorem priority_selection_witness :
    lanesWellFormed sampleControllerA ∧ densitiesInRange sampleControllerA ∧
    noEmergency sampleControllerA ∧
    (∃ j : Fin 4, (laneAt sampleControllerA j).hasVehicles = true ∧
      sampleControllerA.findNextGreenDirection = idxToDir j ∧
      (∀ i : Fin 4, (laneAt sampleControllerA i).hasVehicles = true →
        laneScore (laneAt sampleControllerA i) ≤ laneScore (laneAt sampleControllerA j)) ∧
      (∀ i : Fin 4, i < j → (laneAt sampleControllerA i).hasVehicles = true →
        laneScore (laneAt sampleControllerA i) < laneScore (laneAt sampleControllerA j))) :=
  ⟨by decide, by decide, by decide,
    (priority_selection sampleControllerA (by decide) (by decide) (by decide)).2
      ⟨⟨0, by norm_num⟩, by decide⟩⟩

/-- C3: for every reachable signal the adaptive green time is
`baseGreenTime + 2*queueLength + 2*density` clamped to
`[minGreenTime, maxGreenTime]`, the constants are 20, 3, 10, 60, and the
result always lies between 10 and 60 inclusive. -/
theorem adaptive_green_time_spec (s : TrafficSignal) (hr : SignalReachable s)
    (l : TrafficLane) :
    s.calculateAdaptiveGreenTime l =
      clampInt (20 + (l.getQueueLength : Int) * 2 + l.getTrafficDensity * 2) 10 60 ∧
    s.baseGreenTime = 20 ∧ s.yellowTime = 3 ∧ s.minGreenTime = 10 ∧ s.maxGreenTime = 60 ∧
    10 ≤ s.calculateAdaptiveGreenTime l ∧ s.calculateAdaptiveGreenTime l ≤ 60 := by
  obtain ⟨c1, c2, c3, c4⟩ := signalReachable_consts hr
  have he : s.calculateAdaptiveGreenTime l =
      clampInt (20 + (l.getQueueLength : Int) * 2 + l.getTrafficDensity * 2) 10 60 := by
    unfold TrafficSignal.calculateAdaptiveGreenTime
    rw [c1, c3, c4]
  have hb := clampInt_bounds
    (20 + (l.getQueueLength : Int) * 2 + l.getTrafficDensity * 2) 10 60 (by norm_num)
  exact ⟨he, c1, c2, c3, c4, by rw [he]; exact hb.1, by rw [he]; exact hb.2⟩

/-- Witness for C3 at the constructor signal and the Scenario A lane
(queue 3, density 5: green time 36). -/
theorem adaptive_green_time_witness :
    SignalReachable defaultSignal ∧
    defaultSignal.calculateAdaptiveGreenTime sampleLaneNorthA =
      clampInt (20 + (sampleLaneNorthA.getQueueLength : Int) * 2 +
        sampleLaneNorthA.getTrafficDensity * 2) 10 60 ∧
    10 ≤ defaultSignal.calculateAdaptiveGreenTime sampleLaneNorthA ∧
    defaultSignal.calculateAdaptiveGreenTime sampleLaneNorthA ≤ 60 := by
  have h := adaptive_green_time_spec defaultSignal SignalReachable.base sampleLaneNorthA
  exact ⟨SignalReachable.base, h.1, h.2.2.2.2.2.1, h.2.2.2.2.2.2⟩

/-- C4: `processVehicles(dir, greenTime)` always succeeds (the
`hasVehicles` guard keeps the EmptyQueue branch unreachable), removing
exactly `min(greenTime/2, initial queue length)` vehicles from the head
of the selected lane in order, adding each removed vehicle's waiting time
to `totalWaitTime` and counting each into `totalVehiclesProcessed`, with
every other part of the controller unchanged. -/
theorem process_vehicles_drains (c : IntersectionController) (dir : Direction)
    (greenTime : Int) :
    ∃ c2 : IntersectionController,
      c.processVehicles dir greenTime = .ok c2 ∧
      (c2.lanes dir).vehicles =
        (c.lanes dir).vehicles.drop
          (min (Int.tdiv greenTime 2).toNat (c.lanes dir).vehicles.length) ∧
      (c2.lanes dir).direction = (c.lanes dir).direction ∧
      (c2.lanes dir).trafficDensity = (c.lanes dir).trafficDensity ∧
      (∀ d : Direction, d ≠ dir → c2.lanes d = c.lanes d) ∧
      c2.totalVehiclesProcessed = c.totalVehiclesProcessed +
        ((min (Int.tdiv greenTime 2).toNat (c.lanes dir).vehicles.length : Nat) : Int) ∧
      c2.totalWaitTime = c.totalWaitTime +
        (((c.lanes dir).vehicles.take
          (min (Int.tdiv greenTime 2).toNat (c.lanes dir).vehicles.length)).map
            (fun v => (v.waitingTime : Int))).sum ∧
      c2.signal = c.signal ∧ c2.pedestrianSignals = c.pedestrianSignals ∧
      c2.vehicleCounter = c.vehicleCounter ∧ c2.cycleCounter = c.cycleCounter := by
  have heq : c.processVehicles dir greenTime = .ok
      { c with
        lanes := fun d =>
          if d = dir then
            { c.lanes dir with
              vehicles := List.drop
                (min (Int.tdiv greenTime 2).toNat (c.lanes dir).vehicles.length)
                (c.lanes dir).vehicles }
          else c.lanes d
        totalVehiclesProcessed := c.totalVehiclesProcessed +
          ((min (Int.tdiv greenTime 2).toNat (c.lanes dir).vehicles.length : Nat) : Int)
        totalWaitTime := c.totalWaitTime +
          ((List.take (min (Int.tdiv greenTime 2).toNat (c.lanes dir).vehicles.length)
            (c.lanes dir).vehicles).map (fun v => (v.waitingTime : Int))).sum } := by
    simp only [IntersectionController.processVehicles, drainLoop_spec]
  refine ⟨_, heq, by simp, by simp, by simp, ?_, rfl, rfl, rfl, rfl, rfl, rfl⟩
  intro d hd
  simp [hd]

/-- Witness for C4: Scenario C shape at the Scenario A controller — green
time 36 allows 18 vehicles, only 3 are present, so the call succeeds and
drains the lane. -/
theorem process_vehicles_drains_witness :
    ∃ c2 : IntersectionController,
      sampleControllerA.processVehicles Direction.north 36 = .ok c2 := by
  obtain ⟨c2, h⟩ := process_vehicles_drains sampleControllerA Direction.north 36
  exact ⟨c2, h.1⟩

/-- C5: from any reachable signal state, `changeLight` leaves exactly one
direction Green, and every reachable signal state has at most one Green
direction. -/
theorem signal_green_exclusive (s : TrafficSignal) (hr : SignalReachable s) :
    (∀ d : Direction, ∃! j : Fin 4, (s.changeLight d).lightStates j = .green) ∧
    (∀ j k : Fin 4, s.lightStates j = .green → s.lightStates k = .green → j = k) := by
  have hg := signalReachable_good hr
  constructor
  · intro d
    refine ⟨d.idx, (changeLight_green_iff s hg d d.idx).mpr rfl, ?_⟩
    intro j hj
    exact (changeLight_green_iff s hg d j).mp hj
  · intro j k hjg hkg
    have h1 := hg j hjg
    have h2 := hg k hkg
    exact Fin.ext (by omega)

/-- Witness for C5: switching the all-Red constructor state to East green
leaves exactly one Green light. -/
theorem signal_green_exclusive_witness :
    SignalReachable defaultSignal ∧
    (∃! j : Fin 4, (defaultSignal.changeLight Direction.east).lightStates j = .green) :=
  ⟨SignalReachable.base,
   (signal_green_exclusive defaultSignal SignalReachable.base).1 Direction.east⟩

/-- C6: in the cycle's light transition, a currently green direction is
first set Yellow, the hold lasts exactly `yellowTime = 3`, and only then
does `changeLight` turn that direction Red (when it is not the newly
selected direction). -/
theorem yellow_precedes_red (s : TrafficSignal) (hr : SignalReachable s)
    (d nextDir : Direction) (hgreen : s.getLightState d = .green) :
    (cycleTransition s nextDir).1.getLightState d = .yellow ∧
    (cycleTransition s nextDir).2.2 = 3 ∧
    (nextDir ≠ d → (cycleTransition s nextDir).2.1.getLightState d = .red) := by
  have hg := signalReachable_good hr
  have hc : (d.idx.val : Int) = s.currentGreenDirection := hg d.idx hgreen
  have hpos : 0 ≤ s.currentGreenDirection := by omega
  have hyt := (signalReachable_consts hr).2.1
  unfold cycleTransition
  rw [if_pos hpos]
  refine ⟨?_, hyt, ?_⟩
  · show s.setYellow.lightStates d.idx = .yellow
    rw [setYellow_lightStates, if_pos ⟨hpos, hc⟩]
  · intro hne
    show (s.setYellow.changeLight nextDir).lightStates d.idx = .red
    have hne2 : (d.idx.val : Int) ≠ (nextDir.idx.val : Int) := by
      intro h
      exact hne (Direction.idx_injective (Fin.ext (by exact_mod_cast h))).symm
    rw [changeLight_lightStates, if_neg hne2, setYellow_currentGreen, if_pos ⟨hpos, hc⟩]

/-- Witness for C6: East is green, the next green is North; East is Yellow
during a hold of exactly 3, then Red. -/
theorem yellow_precedes_red_witness :
    (defaultSignal.changeLight Direction.east).getLightState Direction.east = .green ∧
    ((cycleTransition (defaultSignal.changeLight Direction.east)
        Direction.north).1.getLightState Direction.east = .yellow ∧
     (cycleTransition (defaultSignal.changeLight Direction.east) Direction.north).2.2 = 3 ∧
     (Direction.north ≠ Direction.east →
      (cycleTransition (defaultSignal.changeLight Direction.east)
        Direction.north).2.1.getLightState Direction.east = .red)) :=
  ⟨by decide,
   yellow_precedes_red (defaultSignal.changeLight Direction.east)
     (SignalReachable.change Direction.east SignalReachable.base)
     Direction.east Direction.north (by decide)⟩

/-- C7: every reachable lane state has density in `[0, 10]`;
`setTrafficDensity d` stores `clamp(d, 0, 10)` for every integer `d`;
construction sets density 5; and neither `addVehicle` nor a successful
`processVehicle` changes the density. -/
theorem density_clamped :
    (∀ l : TrafficLane, LaneReachable l → 0 ≤ l.trafficDensity ∧ l.trafficDensity ≤ 10) ∧
    (∀ (l : TrafficLane) (d : Int),
      (l.setTrafficDensity d).trafficDensity = clampInt d 0 10) ∧
    (∀ dir : Direction, (defaultLane dir).trafficDensity = 5) ∧
    (∀ (l : TrafficLane) (v : Vehicle), (l.addVehicle v).trafficDensity = l.trafficDensity) ∧
    (∀ (l l2 : TrafficLane) (v : Vehicle), l.processVehicle = .ok (v, l2) →
      l2.trafficDensity = l.trafficDensity) := by
  refine ⟨fun l h => laneReachable_density h, fun l d => rfl, fun dir => rfl,
    fun l v => rfl, ?_⟩
  intro l l2 v heq
  rcases hv : l.vehicles with _ | ⟨w, rest⟩
  · simp [TrafficLane.processVehicle, hv] at heq
  · simp only [TrafficLane.processVehicle, hv] at heq
    rw [Except.ok.injEq, Prod.mk.injEq] at heq
    obtain ⟨-, h2⟩ := heq
    rw [← h2]

/-- Witness for C7: bounds at a reachable lane, and an out-of-range store
that gets clamped. -/
theorem density_clamped_witness :
    LaneReachable (defaultLane Direction.north) ∧
    (0 ≤ (defaultLane Direction.north).trafficDensity ∧
      (defaultLane Direction.north).trafficDensity ≤ 10) ∧
    ((defaultLane Direction.north).setTrafficDensity 42).trafficDensity = clampInt 42 0 10 :=
  ⟨LaneReachable.base Direction.north,
   density_clamped.1 (defaultLane Direction.north) (LaneReachable.base Direction.north),
   density_clamped.2.1 (defaultLane Direction.north) 42⟩

/-- C8: `getAverageWaitTime` is 0 on an empty lane, otherwise the sum of
the enqueued vehicles' waiting times divided by the queue length, and the
call leaves the lane's queue exactly as it was. -/
theorem average_wait_spec (l : TrafficLane) :
    (l.vehicles = [] → l.getAverageWaitTime = 0) ∧
    (l.vehicles ≠ [] → l.getAverageWaitTime =
      ((l.vehicles.map (fun v => (v.waitingTime : ℚ))).sum) / (l.vehicles.length : ℚ)) ∧
    l.averageWaitTimeCall.2.vehicles = l.vehicles ∧
    l.averageWaitTimeCall.2 = l := by
  refine ⟨?_, ?_, rfl, rfl⟩
  · intro h
    simp [TrafficLane.getAverageWaitTime, h]
  · intro h
    have hne : l.vehicles.isEmpty = false := by
      simp [List.isEmpty_iff, h]
    simp only [TrafficLane.getAverageWaitTime, hne, Bool.false_eq_true, if_false,
      getTotalWaitTime_eq]
    rw [Nat.cast_list_sum, List.map_map]
    rfl

/-- Witness for C8 at the Scenario A lane: average wait (4+10+2)/3. -/
theorem average_wait_spec_witness :
    sampleLaneNorthA.vehicles ≠ [] ∧
    sampleLaneNorthA.getAverageWaitTime =
      ((sampleLaneNorthA.vehicles.map (fun v => (v.waitingTime : ℚ))).sum) /
        (sampleLaneNorthA.vehicles.length : ℚ) :=
  ⟨by decide, (average_wait_spec sampleLaneNorthA).2.1 (by decide)⟩

/-- C9: `addVehicle` appends only at the tail, `processVehicle` removes
and returns only the head (so repeated dequeues reproduce the queue in
exact arrival order), and `processVehicle` on an empty lane fails with
the EmptyQueue error instead of producing a vehicle. -/
theorem fifo_queue_spec :
    (∀ (l : TrafficLane) (v : Vehicle), (l.addVehicle v).vehicles = l.vehicles ++ [v]) ∧
    (∀ l : TrafficLane, l.vehicles = [] →
      l.processVehicle = .error "No vehicles to process") ∧
    (∀ (l : TrafficLane) (v : Vehicle) (rest : List Vehicle), l.vehicles = v :: rest →
      l.processVehicle = .ok (v, { l with vehicles := rest })) ∧
    (∀ l : TrafficLane, l.drainAll = l.vehicles) := by
  refine ⟨fun l v => rfl, ?_, ?_, drainAll_eq_vehicles⟩
  · intro l h
    simp [TrafficLane.processVehicle, h]
  · intro l v rest h
    simp [TrafficLane.processVehicle, h]

/-- Witness for C9: appending to an empty lane, failing dequeue on the
empty lane, and draining Scenario A's lane in arrival order. -/
theorem fifo_queue_spec_witness :
    ((defaultLane Direction.north).addVehicle ⟨7, false, 0⟩).vehicles =
      (defaultLane Direction.north).vehicles ++ [⟨7, false, 0⟩] ∧
    (defaultLane Direction.north).processVehicle = .error "No vehicles to process" ∧
    sampleLaneNorthA.drainAll = sampleLaneNorthA.vehicles :=
  ⟨fifo_queue_spec.1 (defaultLane Direction.north) ⟨7, false, 0⟩,
   fifo_queue_spec.2.1 (defaultLane Direction.north) rfl,
   fifo_queue_spec.2.2.2 sampleLaneNorthA⟩

/-- C10: `findNextGreenDirection` is read-only — after the call every
lane, every pedestrian signal, the light states, the current green
direction and all four counters are exactly as before, and the returned
value is the selection itself. -/
theorem find_next_green_readonly (c : IntersectionController) :
    c.findNextGreenDirectionCall.2.lanes = c.lanes ∧
    c.findNextGreenDirectionCall.2.pedestrianSignals = c.pedestrianSignals ∧
    c.findNextGreenDirectionCall.2.signal.lightStates = c.signal.lightStates ∧
    c.findNextGreenDirectionCall.2.signal.currentGreenDirection =
      c.signal.currentGreenDirection ∧
    c.findNextGreenDirectionCall.2.vehicleCounter = c.vehicleCounter ∧
    c.findNextGreenDirectionCall.2.totalVehiclesProcessed = c.totalVehiclesProcessed ∧
    c.findNextGreenDirectionCall.2.totalWaitTime = c.totalWaitTime ∧
    c.findNextGreenDirectionCall.2.cycleCounter = c.cycleCounter ∧
    c.findNextGreenDirectionCall.1 = c.findNextGreenDirection :=
  ⟨rfl, rfl, rfl, rfl, rfl, rfl, rfl, rfl, rfl⟩

end TrafficSim
